import Mathlib

/-!
# Verification of the `release` tag-proposal tool

A shallow embedding of `cmd/release/main.go` (the driver) together with the
operations of the `release` package it calls.  The driver's control flow —
the remote check, proposal computation, the dry-run branch, and the
create/push loop — is translated directly from `main.go`.  The `release`
package itself (`NewManager`, `GetProposedDate`, `GetProposedSemName`,
`IncrementVersion`, `FormatRelease`, `CreateTag`, `PushTagToRemote`,
`CheckRemote`) is not part of the sources at hand, so its operations are
modelled from the specification, as marked on each definition.
-/

namespace Release

/-- Prefix test on strings, on the underlying character lists
(Go `strings.HasPrefix`). -/
def strStartsWith (s p : String) : Bool := p.data.isPrefixOf s.data

/-- Drop the first `n` characters of a string (Go `strings.TrimPrefix`
once the prefix is known to match). -/
def strDrop (s : String) (n : Nat) : String := ⟨s.data.drop n⟩

/-- Decimal digit accumulation: `some` of the value when every character
is a digit, `none` otherwise (Go `strconv.Atoi` on non-negative input). -/
def digitsToNat : List Char → Nat → Option Nat
  | [], acc => some acc
  | c :: cs, acc =>
    if c.isDigit then digitsToNat cs (acc * 10 + (c.toNat - 48)) else none

/-- Parse a non-empty all-digit string as a natural number; anything
else (empty, or containing a non-digit) is `none`. -/
def parseNat (s : String) : Option Nat :=
  if s.data = [] then none else digitsToNat s.data 0

/-- Zero-pad a natural number to three decimal digits: the Go format
string `%03d` used as `incrementFormat` in `main.go`. -/
def pad3 (n : Nat) : String :=
  if n < 10 then "00" ++ toString n
  else if n < 100 then "0" ++ toString n
  else toString n

/-- Modelled from the spec: the date scheme `GetProposedDate` of the
`release` package (its source file is not under `src/`; only its call site
in `main.go` is).  Following §4.2: format today as the literal prefix
(`YYYY.MM.`, supplied here already formatted by the driver's `%Y.%m.`
format), then always append a numeric suffix: scan the existing tags for
entries matching the literal prefix, parse the trailing numeric component
of each match (malformed, non-numeric trailing suffixes are ignored, not
errors), choose `max + 1` defaulting to `1` when no match exists, and
zero-pad to three digits.  The driver sets `AlwaysIncludeNumber = true`,
so the numeric suffix is always present. -/
def getProposedDate (pfx : String) (tags : List String) : String :=
  let nums := tags.filterMap fun t =>
    if strStartsWith t pfx then parseNat (strDrop t pfx.data.length) else none
  pfx ++ pad3 (nums.foldl max 0 + 1)

/-- The semver scheme's version triple (`ProposedVersion` in the
`release` package). -/
structure ProposedVersion where
  major : Nat
  minor : Nat
  patch : Nat
deriving DecidableEq, Repr

/-- Render `major.minor.patch`. -/
def versionString (v : ProposedVersion) : String :=
  toString v.major ++ "." ++ toString v.minor ++ "." ++ toString v.patch

/-- Split a character list on `.` separators (Go `strings.Split`). -/
def splitDots : List Char → List Char → List (List Char)
  | [], acc => [acc.reverse]
  | c :: cs, acc =>
    if c = '.' then acc.reverse :: splitDots cs []
    else splitDots cs (c :: acc)

/-- Modelled from the spec: parsing one tag as a semantic version
(§4.3): `major.minor.patch` with an optional leading `v`; anything else
is not a candidate (`none`), silently ignored. -/
def parseSemVer (t : String) : Option ProposedVersion :=
  let t := if strStartsWith t "v" then strDrop t 1 else t
  match splitDots t.data [] with
  | [a, b, c] =>
    match parseNat ⟨a⟩, parseNat ⟨b⟩, parseNat ⟨c⟩ with
    | some ma, some mi, some pa => some ⟨ma, mi, pa⟩
    | _, _, _ => none
  | _ => none

/-- Strict ordering on version triples by (major, minor, patch). -/
def semverLt (a b : ProposedVersion) : Bool :=
  a.major < b.major ∨
    (a.major = b.major ∧
      (a.minor < b.minor ∨ (a.minor = b.minor ∧ a.patch < b.patch)))

/-- Modelled from the spec: `GetProposedSemName` of the `release`
package (§4.3): parse every tag that has the semantic-version shape,
ignore the rest, and select the maximum by (major, minor, patch)
ordering, starting from `0.0.0` when no tag parses. -/
def getProposedSemName (tags : List String) : ProposedVersion :=
  (tags.filterMap parseSemVer).foldl
    (fun acc v => if semverLt acc v then v else acc) ⟨0, 0, 0⟩

/-- Modelled from the spec: `IncrementVersion` (§4.3): at most one of
the three bumps is applied, the highest requested component wins, and
incrementing a component resets the lower ones to zero; with no flags
set the version is unchanged. -/
def incrementVersion (v : ProposedVersion)
    (bMajor bMinor bPatch : Bool) : ProposedVersion :=
  if bMajor then ⟨v.major + 1, 0, 0⟩
  else if bMinor then ⟨v.major, v.minor + 1, 0⟩
  else if bPatch then ⟨v.major, v.minor, v.patch + 1⟩
  else v

/-- The module/branch suffix appended by `FormatRelease` after the
version triple: `-<module>` when the module is non-empty, then a branch
suffix when the branch is non-empty and not the primary branch
(`main`, per the spec's examples). -/
def modBranchSuffix (module branch : String) : String :=
  (if module = "" then "" else "-" ++ module) ++
    (if branch = "" ∨ branch = "main" then "" else "-" ++ branch)

/-- Modelled from the spec: `FormatRelease` of the `release` package
(§4.3): render `major.minor.patch`, then append `-<module>` if the
module is non-empty, then append a branch-derived suffix if the branch
is non-empty and not the primary branch name. -/
def formatRelease (v : ProposedVersion) (module branch : String) : String :=
  versionString v ++ modBranchSuffix module branch

/-- Modelled from the spec: `CreateTag` of the `release` package (§4.4):
fails with `TagAlreadyExists` when the name collides with an existing tag
(no overwrite), fails with `MissingIdentity` when a message is requested
but the tagger identity cannot be resolved, and otherwise records the new
tag at the current commit. -/
def createTag (tags : List String) (name message userName email : String) :
    Except String (List String) :=
  if name ∈ tags then Except.error "TagAlreadyExists"
  else if message ≠ "" ∧ (userName = "" ∨ email = "") then
    Except.error "MissingIdentity"
  else Except.ok (tags ++ [name])

/-! ## The driver (`cmd/release/main.go`)

The flag values after parsing and default handling are collected in
`RunConfig`; the repository and transport environment the run observes is
collected in `Env`.  `runMain` is the body of `main` from the point where
the release manager is constructed (line 121) to the end. -/

/-- The driver's flag values after parsing: modules (from `--component`
and positional arguments), scheme selection, increment flags, dry-run and
push switches, remote name, tag message, resolved identity, and the
formatted date prefix (`%Y.%m.` applied to today). -/
structure RunConfig where
  modules : List String
  semVer : Bool
  incMajor : Bool
  incMinor : Bool
  incPatch : Bool
  dryRun : Bool
  doPush : Bool
  remote : String
  message : String
  userName : String
  email : String
  datePfx : String

/-- The repository and transport environment of one invocation:
the error component of `release.NewManager` (`none` when the working
directory opened as a repository), whether `CheckRemote` succeeds for a
given remote name, the push outcome and transport status message per tag
name, the current branch (`none` when `GetBranch` fails), and the tag set
at the start of the run. -/
structure Env where
  newManagerErr : Option String
  remoteOk : String → Bool
  pushOk : String → Bool
  pushMsg : String → String
  branch : Option String
  initialTags : List String

/-- How the process ends: `nilDeref` when a method is invoked on the nil
manager returned alongside a `NewManager` error, `fatal` for
`release.CheckIfError` / `log.Fatal` (zerolog exits with code 1), and
`exit` for an explicit or implicit exit code. -/
inductive Outcome where
  | nilDeref
  | fatal (msg : String)
  | exit (code : Nat)
deriving DecidableEq, Repr

/-- Observable steps of the driver's prelude, in execution order. -/
inductive Event where
  | newManagerCall
  | checkRemoteCall
  | managerErrCheck
deriving DecidableEq, Repr

/-- What one invocation produces: the outcome, the stdout lines, the
final tag set of the repository, and the prelude event trace. -/
structure RunResult where
  outcome : Outcome
  stdout : List String
  finalTags : List String
  events : List Event
deriving Repr

/-- `main.go` line 88: an empty module list becomes the single unnamed
module `""`. -/
def effectiveModules (ms : List String) : List String :=
  if ms = [] then [""] else ms

/-- `main.go` lines 133-153: the proposal phase.  For the semver scheme,
`GetProposedSemName` is read once, `IncrementVersion` is applied once to
that single proposed version before the module loop, and every module is
formatted from the same triple.  For the date scheme, `GetProposedDate`
is read once and each non-empty module name is appended after the
number with a `-` separator. -/
def computeReleases (cfg : RunConfig) (branch : String)
    (tags : List String) : List String :=
  if cfg.semVer then
    let v := incrementVersion (getProposedSemName tags)
      cfg.incMajor cfg.incMinor cfg.incPatch
    (effectiveModules cfg.modules).map fun m => formatRelease v m branch
  else
    let d := getProposedDate cfg.datePfx tags
    (effectiveModules cfg.modules).map fun m =>
      if m = "" then d else d ++ "-" ++ m

/-- The advisory printed by `main.go` line 182 when a push fails after
the tag was created locally. -/
def pushAdvice (name : String) : String :=
  "the tag will still be in the local repo you can delete it with " ++
    "`git tag -d " ++ name ++ "` or push it with `git push <REMOTE> " ++
    name ++ "` once you have resolved the issue preventing push"

/-- State threaded through the create/push loop of `main.go` lines
164-186: the repository's tag set, the `failedCreate` flag, and the
stdout lines printed so far. -/
structure LoopSt where
  tags : List String
  failed : Bool
  out : List String
deriving Repr

/-- One iteration of the create/push loop (`main.go` lines 165-186): try
to create the tag; on failure set `failedCreate` and continue; on success
print the created line, and when `--push` is set push the tag, printing
the transport status on success and the advisory (plus setting
`failedCreate`) on failure.  A failed push never deletes the tag. -/
def stepRelease (cfg : RunConfig) (env : Env) (st : LoopSt)
    (name : String) : LoopSt :=
  match createTag st.tags name cfg.message cfg.userName cfg.email with
  | Except.error _ => { st with failed := true }
  | Except.ok tags2 =>
    let st1 : LoopSt :=
      { tags := tags2, failed := st.failed
        out := st.out ++ ["created release: " ++ name] }
    if cfg.doPush then
      if env.pushOk name then
        { st1 with out := st1.out ++ [env.pushMsg name] }
      else
        { st1 with out := st1.out ++ [pushAdvice name], failed := true }
    else st1

/-- The fatal message of `main.go` line 125 when the remote check
fails. -/
def remoteProblemMsg (remote : String) : String :=
  "problem with remote " ++ remote ++
    ", cannot push, omit --push or fix the remote"

/-- The fatal message of `main.go` line 131. -/
def loadManagerMsg : String := "failed to load release manager"

/-- The aggregate fatal message of `main.go` line 193, printed once at
the end when at least one create or push failed. -/
def atLeastOneMsg (doPush : Bool) : String :=
  "at least one tag failed to create" ++ (if doPush then "/push" else "") ++
    ", see above. exiting..."

/-- `main.go` lines 131-200: the part of `main` after the remote check:
check the `NewManager` error, compute all proposals up front, print the
dry-run summary and exit 0 when `--dry-run` is set, and otherwise run
the create/push loop, ending with the aggregate fatal (exit 1) when any
iteration failed, or exit 0 (with the not-pushed hint when `--push` is
unset). -/
def runAfterRemote (cfg : RunConfig) (env : Env) (ev : List Event) :
    RunResult :=
  let ev := ev ++ [Event.managerErrCheck]
  match env.newManagerErr with
  | some _ => ⟨Outcome.fatal loadManagerMsg, [], env.initialTags, ev⟩
  | none =>
    if cfg.semVer ∧ env.branch = none then
      ⟨Outcome.fatal "Unable to get current branch", [], env.initialTags, ev⟩
    else
      let newReleases := computeReleases cfg (env.branch.getD "")
        env.initialTags
      let plural := if newReleases.length > 1 then "s" else ""
      if cfg.dryRun then
        ⟨Outcome.exit 0,
          ["would create release" ++ plural ++ ":",
            String.intercalate ", " newReleases],
          env.initialTags, ev⟩
      else
        let st := List.foldl (stepRelease cfg env)
          ⟨env.initialTags, false, []⟩ newReleases
        if st.failed then
          ⟨Outcome.fatal (atLeastOneMsg cfg.doPush), st.out, st.tags, ev⟩
        else if cfg.doPush then
          ⟨Outcome.exit 0, st.out, st.tags, ev⟩
        else
          ⟨Outcome.exit 0,
            st.out ++
              ["tag" ++ plural ++ " (" ++
                  String.intercalate ", " newReleases ++
                  ") not pushed (--push not set), push it with:",
                " git push " ++ cfg.remote ++ " " ++
                  String.intercalate " " newReleases],
            st.tags, ev⟩

/-- `main.go` lines 121-200.  Line 121 calls `release.NewManager`; lines
123-126 then invoke `rm.CheckRemote(remote)` when `--push` is set
*before* line 131 checks the `NewManager` error, so when construction
failed the method call runs on the nil manager (modelled as `nilDeref`)
and the `failed to load release manager` path is never reached. -/
def runMain (cfg : RunConfig) (env : Env) : RunResult :=
  let ev1 := [Event.newManagerCall]
  if cfg.doPush then
    match env.newManagerErr with
    | some _ =>
      ⟨Outcome.nilDeref, [], env.initialTags, ev1 ++ [Event.checkRemoteCall]⟩
    | none =>
      if env.remoteOk cfg.remote then
        runAfterRemote cfg env (ev1 ++ [Event.checkRemoteCall])
      else
        ⟨Outcome.fatal (remoteProblemMsg cfg.remote), [], env.initialTags,
          ev1 ++ [Event.checkRemoteCall]⟩
  else
    runAfterRemote cfg env ev1

/-- Whether the create/push loop hits at least one failure when run over
the given release names starting from the given tag set: a tag creation
error, or (when `--push` is set) a push failure after a successful
creation.  Mirrors how `failedCreate` is raised in `main.go` lines
164-186; tags evolve only on successful creation, as in the loop. -/
def anyFailure (cfg : RunConfig) (env : Env) :
    List String → List String → Bool
  | _, [] => false
  | tags, n :: ns =>
    match createTag tags n cfg.message cfg.userName cfg.email with
    | Except.error _ => true
    | Except.ok tags2 =>
      (cfg.doPush && !env.pushOk n) || anyFailure cfg env tags2 ns

/-- A concrete date-scheme invocation in January 2024: no semver, no
dry run, no push, lightweight tags. -/
def dateCfg (ms : List String) : RunConfig :=
  ⟨ms, false, false, false, false, false, false, "origin", "", "", "",
    "2024.01."⟩

/-- A concrete semver invocation with `--inc-minor`. -/
def semCfg (ms : List String) : RunConfig :=
  ⟨ms, true, false, true, false, false, false, "origin", "", "", "",
    "2024.01."⟩

/-- A concrete healthy environment: the repository opened, every remote
exists, every push succeeds, the current branch is `main`. -/
def baseEnv (tags : List String) : Env :=
  ⟨none, fun _ => true, fun _ => true, fun n => "pushed " ++ n,
    some "main", tags⟩

/-! ## Helper lemmas about the create/push loop -/

lemma createTag_ok_eq {tags : List String}
    {name message userName email : String} {tags2 : List String}
    (h : createTag tags name message userName email = Except.ok tags2) :
    tags2 = tags ++ [name] := by
  unfold createTag at h
  split at h
  · cases h
  · split at h
    · cases h
    · injection h with h
      exact h.symm

lemma stepRelease_error {cfg : RunConfig} {env : Env} {st : LoopSt}
    {n : String} {e : String}
    (h : createTag st.tags n cfg.message cfg.userName cfg.email =
      Except.error e) :
    stepRelease cfg env st n = { st with failed := true } := by
  unfold stepRelease
  rw [h]

lemma stepRelease_tags {cfg : RunConfig} {env : Env} {st : LoopSt}
    {n : String} {x : String} (hx : x ∈ st.tags) :
    x ∈ (stepRelease cfg env st n).tags := by
  unfold stepRelease
  cases hct : createTag st.tags n cfg.message cfg.userName cfg.email with
  | error e => simpa using hx
  | ok tags2 =>
    have h2 : tags2 = st.tags ++ [n] := createTag_ok_eq hct
    by_cases hp : cfg.doPush = true <;>
      by_cases hpk : env.pushOk n = true <;>
        simp [hp, hpk, h2, List.mem_append, hx]

lemma stepRelease_out {cfg : RunConfig} {env : Env} {st : LoopSt}
    {n : String} {x : String} (hx : x ∈ st.out) :
    x ∈ (stepRelease cfg env st n).out := by
  unfold stepRelease
  cases hct : createTag st.tags n cfg.message cfg.userName cfg.email with
  | error e => simpa using hx
  | ok tags2 =>
    by_cases hp : cfg.doPush = true <;>
      by_cases hpk : env.pushOk n = true <;>
        simp [hp, hpk, List.mem_append, hx]

lemma foldl_tags_mono (cfg : RunConfig) (env : Env) (ns : List String) :
    ∀ (st : LoopSt) (x : String), x ∈ st.tags →
      x ∈ (List.foldl (stepRelease cfg env) st ns).tags := by
  induction ns with
  | nil => intro st x hx; simpa using hx
  | cons n ns ih =>
    intro st x hx
    simp only [List.foldl_cons]
    exact ih _ _ (stepRelease_tags hx)

lemma foldl_out_mono (cfg : RunConfig) (env : Env) (ns : List String) :
    ∀ (st : LoopSt) (x : String), x ∈ st.out →
      x ∈ (List.foldl (stepRelease cfg env) st ns).out := by
  induction ns with
  | nil => intro st x hx; simpa using hx
  | cons n ns ih =>
    intro st x hx
    simp only [List.foldl_cons]
    exact ih _ _ (stepRelease_out hx)

lemma foldl_failed_eq (cfg : RunConfig) (env : Env) (ns : List String) :
    ∀ st : LoopSt,
      (List.foldl (stepRelease cfg env) st ns).failed =
        (st.failed || anyFailure cfg env st.tags ns) := by
  induction ns with
  | nil => intro st; simp [anyFailure]
  | cons n ns ih =>
    intro st
    simp only [List.foldl_cons]
    cases hct : createTag st.tags n cfg.message cfg.userName cfg.email with
    | error e =>
      rw [stepRelease_error hct, ih]
      simp [anyFailure, hct]
    | ok tags2 =>
      have hstep :
          (stepRelease cfg env st n).tags = tags2 ∧
            (stepRelease cfg env st n).failed =
              (st.failed || (cfg.doPush && !env.pushOk n)) := by
        unfold stepRelease
        rw [hct]
        by_cases hp : cfg.doPush = true <;>
          by_cases hpk : env.pushOk n = true <;>
            simp [hp, hpk]
      rw [ih, hstep.1, hstep.2]
      simp [anyFailure, hct, Bool.or_assoc]

lemma branch_cond_false {cfg : RunConfig} {env : Env}
    (hbr : cfg.semVer = true → env.branch.isSome = true) :
    ¬(cfg.semVer = true ∧ env.branch = none) := by
  rintro ⟨hs, hn⟩
  have h := hbr hs
  rw [hn] at h
  simp at h

lemma runMain_eq_after {cfg : RunConfig} {env : Env}
    (hnm : env.newManagerErr = none)
    (hrem : cfg.doPush = true → env.remoteOk cfg.remote = true) :
    ∃ ev, runMain cfg env = runAfterRemote cfg env ev := by
  unfold runMain
  by_cases hp : cfg.doPush = true
  · rw [if_pos hp, hnm, if_pos (hrem hp)]
    exact ⟨_, rfl⟩
  · rw [if_neg hp]
    exact ⟨_, rfl⟩

lemma runAfterRemote_dry {cfg : RunConfig} {env : Env} (ev : List Event)
    (hnm : env.newManagerErr = none)
    (hbr : cfg.semVer = true → env.branch.isSome = true)
    (hdr : cfg.dryRun = true) :
    (runAfterRemote cfg env ev).outcome = Outcome.exit 0 ∧
    (runAfterRemote cfg env ev).stdout =
      ["would create release" ++
          (if (computeReleases cfg (env.branch.getD "")
                env.initialTags).length > 1 then "s" else "") ++ ":",
        String.intercalate ", "
          (computeReleases cfg (env.branch.getD "") env.initialTags)] ∧
    (runAfterRemote cfg env ev).finalTags = env.initialTags := by
  unfold runAfterRemote
  rw [hnm]
  simp [if_neg (branch_cond_false hbr), hdr]

lemma runAfterRemote_loop {cfg : RunConfig} {env : Env} (ev : List Event)
    (hnm : env.newManagerErr = none)
    (hbr : cfg.semVer = true → env.branch.isSome = true)
    (hdr : cfg.dryRun = false) :
    (runAfterRemote cfg env ev).outcome =
      (if anyFailure cfg env env.initialTags
          (computeReleases cfg (env.branch.getD "") env.initialTags) = true
        then Outcome.fatal (atLeastOneMsg cfg.doPush)
        else Outcome.exit 0) := by
  unfold runAfterRemote
  rw [hnm]
  simp only [if_neg (branch_cond_false hbr), hdr, Bool.false_eq_true,
    if_false]
  have hfail := foldl_failed_eq cfg env
    (computeReleases cfg (env.branch.getD "") env.initialTags)
    ⟨env.initialTags, false, []⟩
  simp only [Bool.false_or] at hfail
  by_cases ha : anyFailure cfg env env.initialTags
      (computeReleases cfg (env.branch.getD "") env.initialTags) = true
  · rw [if_pos ha]
    rw [ha] at hfail
    simp only [hfail, if_true]
  · rw [if_neg ha]
    rw [Bool.not_eq_true] at ha
    rw [ha] at hfail
    simp only [hfail, Bool.false_eq_true, if_false]
    by_cases hp : cfg.doPush = true <;> simp [hp]

lemma runAfterRemote_dry_tags (cfg : RunConfig) (env : Env)
    (ev : List Event) (h : cfg.dryRun = true) :
    (runAfterRemote cfg env ev).finalTags = env.initialTags := by
  unfold runAfterRemote
  cases hnm : env.newManagerErr with
  | some e => rfl
  | none =>
    split
    · rfl
    · split
      · rfl
      · simp [h]

/-! ## The claims -/

/-- C3: for every invocation with `--dry-run` set, the program performs
no repository mutation — no tag is created or pushed, so the tag list
after the run equals the tag list before it. -/
theorem c3_dry_run_no_mutation (cfg : RunConfig) (env : Env)
    (h : cfg.dryRun = true) :
    (runMain cfg env).finalTags = env.initialTags := by
  unfold runMain
  by_cases hp : cfg.doPush = true
  · rw [if_pos hp]
    cases hnm : env.newManagerErr with
    | some e => rfl
    | none =>
      by_cases hr : env.remoteOk cfg.remote = true
      · rw [if_pos hr]
        exact runAfterRemote_dry_tags cfg env _ h
      · rw [if_neg hr]
  · rw [if_neg hp]
    exact runAfterRemote_dry_tags cfg env _ h

/-- Witness for C3 at a concrete dry-run invocation. -/
theorem c3_dry_run_no_mutation_witness :
    ({ dateCfg ["api"] with dryRun := true } : RunConfig).dryRun = true ∧
    (runMain { dateCfg ["api"] with dryRun := true }
        (baseEnv ["2024.01.001"])).finalTags =
      (baseEnv ["2024.01.001"]).initialTags :=
  ⟨rfl, c3_dry_run_no_mutation _ _ rfl⟩

/-- C6: with `--push` set, the remote is validated before any tag work:
when the remote check fails the run ends with the dedicated fatal
message, the tag list is untouched and nothing was printed to stdout —
no partial state is left behind. -/
theorem c6_remote_check_fail_fast (cfg : RunConfig) (env : Env)
    (h1 : cfg.doPush = true) (h2 : env.newManagerErr = none)
    (h3 : env.remoteOk cfg.remote = false) :
    (runMain cfg env).outcome =
        Outcome.fatal (remoteProblemMsg cfg.remote) ∧
    (runMain cfg env).finalTags = env.initialTags ∧
    (runMain cfg env).stdout = [] := by
  unfold runMain
  rw [if_pos h1]
  simp only [h2]
  rw [if_neg (by rw [h3]; simp)]
  refine ⟨?_, ?_, ?_⟩ <;> simp

/-- Witness for C6 at a concrete invocation whose remote is missing. -/
theorem c6_remote_check_fail_fast_witness :
    ({ dateCfg ["api"] with doPush := true } : RunConfig).doPush = true ∧
    ({ baseEnv ["t"] with remoteOk := fun _ => false } : Env).remoteOk
        "origin" = false ∧
    (runMain { dateCfg ["api"] with doPush := true }
        { baseEnv ["t"] with remoteOk := fun _ => false }).outcome =
      Outcome.fatal (remoteProblemMsg "origin") ∧
    (runMain { dateCfg ["api"] with doPush := true }
        { baseEnv ["t"] with remoteOk := fun _ => false }).finalTags =
      ["t"] :=
  ⟨rfl, rfl,
    (c6_remote_check_fail_fast _ _ rfl rfl rfl).1,
    (c6_remote_check_fail_fast _ _ rfl rfl rfl).2.1⟩

/-- C9: with `--push` set and `release.NewManager` returning an error,
`rm.CheckRemote` runs on the returned manager before the `NewManager`
error is ever checked: the `managerErrCheck` step never appears in the
trace, the remote-check call does, and the outcome is the method call on
the failed manager (`nilDeref`), never the
`failed to load release manager` fatal path. -/
theorem c9_check_remote_before_manager_err (cfg : RunConfig) (env : Env)
    (e : String) (h1 : cfg.doPush = true)
    (h2 : env.newManagerErr = some e) :
    (runMain cfg env).events =
        [Event.newManagerCall, Event.checkRemoteCall] ∧
    Event.managerErrCheck ∉ (runMain cfg env).events ∧
    (runMain cfg env).outcome = Outcome.nilDeref ∧
    (runMain cfg env).outcome ≠ Outcome.fatal loadManagerMsg := by
  unfold runMain
  rw [if_pos h1]
  simp only [h2]
  refine ⟨?_, ?_, ?_, ?_⟩ <;> simp

/-- Witness for C9 at a concrete invocation in a non-repository
directory. -/
theorem c9_check_remote_before_manager_err_witness :
    ({ dateCfg ["api"] with doPush := true } : RunConfig).doPush = true ∧
    ({ baseEnv [] with newManagerErr := some "not a repo" } :
        Env).newManagerErr = some "not a repo" ∧
    (runMain { dateCfg ["api"] with doPush := true }
        { baseEnv [] with newManagerErr := some "not a repo" }).outcome =
      Outcome.nilDeref :=
  ⟨rfl, rfl,
    (c9_check_remote_before_manager_err _ _ "not a repo" rfl rfl).2.2.1⟩

/-- C4: once the setup phase has succeeded (repository opened, remote
present when `--push` is set, branch known when `--semver` is set), the
exit code is 0 on a dry run; otherwise it is 0 exactly when no module's
tag creation failed and (when `--push` is set) no module's push failed,
and any such failure ends the run in the fatal path, which exits
non-zero. -/
theorem c4_exit_codes (cfg : RunConfig) (env : Env)
    (hnm : env.newManagerErr = none)
    (hrem : cfg.doPush = true → env.remoteOk cfg.remote = true)
    (hbr : cfg.semVer = true → env.branch.isSome = true) :
    (cfg.dryRun = true → (runMain cfg env).outcome = Outcome.exit 0) ∧
    (cfg.dryRun = false →
      ((runMain cfg env).outcome = Outcome.exit 0 ↔
        anyFailure cfg env env.initialTags
          (computeReleases cfg (env.branch.getD "")
            env.initialTags) = false) ∧
      (anyFailure cfg env env.initialTags
          (computeReleases cfg (env.branch.getD "")
            env.initialTags) = true →
        (runMain cfg env).outcome =
          Outcome.fatal (atLeastOneMsg cfg.doPush))) := by
  obtain ⟨ev, heq⟩ := runMain_eq_after hnm hrem
  rw [heq]
  constructor
  · intro hdr
    exact (runAfterRemote_dry ev hnm hbr hdr).1
  · intro hdr
    have hout := runAfterRemote_loop ev hnm hbr hdr
    constructor
    · rw [hout]
      cases haf : anyFailure cfg env env.initialTags
          (computeReleases cfg (env.branch.getD "") env.initialTags) <;>
        simp [haf]
    · intro ha
      rw [hout, if_pos ha]

/-- Witness for C4 at a concrete failure-free invocation. -/
theorem c4_exit_codes_witness :
    (baseEnv []).newManagerErr = none ∧
    (dateCfg ["api"]).dryRun = false ∧
    anyFailure (dateCfg ["api"]) (baseEnv []) []
      (computeReleases (dateCfg ["api"]) "main" []) = false ∧
    (runMain (dateCfg ["api"]) (baseEnv [])).outcome = Outcome.exit 0 :=
  ⟨rfl, rfl, by decide,
    (((c4_exit_codes (dateCfg ["api"]) (baseEnv []) rfl
        (fun h => by cases h) (fun h => by cases h)).2 rfl).1).mpr
      (by decide)⟩

/-- C5: a tag-creation failure for one module leaves the loop state for
the remaining modules exactly as if only the failure flag had been
raised (processing continues); a push failure after a successful create
likewise only raises the flag and extends the output; the flag, once
raised, survives to the end of the loop; and any recorded failure ends
the run with the single aggregate fatal message, whose exit status is
non-zero. -/
theorem c5_failure_does_not_abort (cfg : RunConfig) (env : Env)
    (st : LoopSt) (n : String) (ns : List String) :
    (∀ e, createTag st.tags n cfg.message cfg.userName cfg.email =
        Except.error e →
      List.foldl (stepRelease cfg env) st (n :: ns) =
        List.foldl (stepRelease cfg env)
          { tags := st.tags, failed := true, out := st.out } ns) ∧
    (∀ tags2, createTag st.tags n cfg.message cfg.userName cfg.email =
        Except.ok tags2 →
      cfg.doPush = true → env.pushOk n = false →
      List.foldl (stepRelease cfg env) st (n :: ns) =
        List.foldl (stepRelease cfg env)
          { tags := tags2, failed := true,
            out := st.out ++ ["created release: " ++ n, pushAdvice n] }
          ns) ∧
    (st.failed = true →
      (List.foldl (stepRelease cfg env) st ns).failed = true) ∧
    (env.newManagerErr = none →
      (cfg.doPush = true → env.remoteOk cfg.remote = true) →
      (cfg.semVer = true → env.branch.isSome = true) →
      cfg.dryRun = false →
      anyFailure cfg env env.initialTags
        (computeReleases cfg (env.branch.getD "")
          env.initialTags) = true →
      (runMain cfg env).outcome =
        Outcome.fatal (atLeastOneMsg cfg.doPush)) := by
  refine ⟨?_, ?_, ?_, ?_⟩
  · intro e he
    rw [List.foldl_cons, stepRelease_error he]
  · intro tags2 hct hp hpk
    rw [List.foldl_cons]
    have hstep : stepRelease cfg env st n =
        { tags := tags2, failed := true,
          out := st.out ++ ["created release: " ++ n, pushAdvice n] } := by
      unfold stepRelease
      rw [hct]
      simp [hp, hpk]
    rw [hstep]
  · intro hf
    rw [foldl_failed_eq cfg env ns st, hf]
    rfl
  · intro hnm hrem hbr hdr ha
    obtain ⟨ev, heq⟩ := runMain_eq_after hnm hrem
    rw [heq, runAfterRemote_loop ev hnm hbr hdr, if_pos ha]

/-- Witness for C5: a duplicate tag fails to create, the loop continues
with the next release, and the run ends in the aggregate fatal. -/
theorem c5_failure_does_not_abort_witness :
    List.foldl (stepRelease (dateCfg ["x"]) (baseEnv ["x"]))
        ⟨["x"], false, []⟩ ["x", "y"] =
      List.foldl (stepRelease (dateCfg ["x"]) (baseEnv ["x"]))
        ⟨["x"], true, []⟩ ["y"] ∧
    (runMain (dateCfg ["", ""]) (baseEnv [])).outcome =
      Outcome.fatal (atLeastOneMsg (dateCfg ["", ""]).doPush) :=
  ⟨(c5_failure_does_not_abort (dateCfg ["x"]) (baseEnv ["x"])
      ⟨["x"], false, []⟩ "x" ["y"]).1 "TagAlreadyExists" rfl,
    (c5_failure_does_not_abort (dateCfg ["", ""]) (baseEnv [])
      ⟨[], false, []⟩ "" []).2.2.2 rfl (fun h => by cases h)
      (fun h => by cases h) rfl (by decide)⟩

/-- C7: when a push fails after the tag was created locally, the tag
stays in the repository (this iteration keeps it, and no later iteration
removes it), the failure flag is raised, and the advisory telling the
user how to delete the tag or push it manually is printed and stays in
the output. -/
theorem c7_push_failure_keeps_tag (cfg : RunConfig) (env : Env)
    (st : LoopSt) (n : String) (tags2 : List String)
    (hd : cfg.doPush = true)
    (hc : createTag st.tags n cfg.message cfg.userName cfg.email =
      Except.ok tags2)
    (hp : env.pushOk n = false) :
    (stepRelease cfg env st n).tags = tags2 ∧
    n ∈ (stepRelease cfg env st n).tags ∧
    pushAdvice n ∈ (stepRelease cfg env st n).out ∧
    (stepRelease cfg env st n).failed = true ∧
    (∀ ns, n ∈
      (List.foldl (stepRelease cfg env)
        (stepRelease cfg env st n) ns).tags) ∧
    (∀ ns, pushAdvice n ∈
      (List.foldl (stepRelease cfg env)
        (stepRelease cfg env st n) ns).out) := by
  have hstep : stepRelease cfg env st n =
      { tags := tags2, failed := true,
        out := st.out ++ ["created release: " ++ n, pushAdvice n] } := by
    unfold stepRelease
    rw [hc]
    simp [hd, hp]
  have htag : n ∈ (stepRelease cfg env st n).tags := by
    rw [hstep, createTag_ok_eq hc]
    simp
  have hout : pushAdvice n ∈ (stepRelease cfg env st n).out := by
    rw [hstep]
    simp
  refine ⟨by rw [hstep], htag, hout, by rw [hstep], ?_, ?_⟩
  · intro ns
    exact foldl_tags_mono cfg env ns _ _ htag
  · intro ns
    exact foldl_out_mono cfg env ns _ _ hout

/-- Witness for C7 at a concrete failing push. -/
theorem c7_push_failure_keeps_tag_witness :
    createTag [] "2024.01.001-api" "" "" "" =
      Except.ok ["2024.01.001-api"] ∧
    "2024.01.001-api" ∈
      (stepRelease { dateCfg ["api"] with doPush := true }
        { baseEnv [] with pushOk := fun _ => false }
        ⟨[], false, []⟩ "2024.01.001-api").tags ∧
    pushAdvice "2024.01.001-api" ∈
      (stepRelease { dateCfg ["api"] with doPush := true }
        { baseEnv [] with pushOk := fun _ => false }
        ⟨[], false, []⟩ "2024.01.001-api").out :=
  ⟨rfl,
    (c7_push_failure_keeps_tag { dateCfg ["api"] with doPush := true }
      { baseEnv [] with pushOk := fun _ => false } ⟨[], false, []⟩
      "2024.01.001-api" ["2024.01.001-api"] rfl rfl rfl).2.1,
    (c7_push_failure_keeps_tag { dateCfg ["api"] with doPush := true }
      { baseEnv [] with pushOk := fun _ => false } ⟨[], false, []⟩
      "2024.01.001-api" ["2024.01.001-api"] rfl rfl rfl).2.2.1⟩

/-- C10: for a semver invocation, `IncrementVersion` is applied exactly
once to the single proposed version read from the tags, before the
module loop: every identifier of the run is that one incremented triple
rendered by `FormatRelease`, so all identifiers share the same
`major.minor.patch` text and differ only in the module/branch suffix. -/
theorem c10_semver_single_increment (cfg : RunConfig) (b : String)
    (tags : List String) (h : cfg.semVer = true) :
    computeReleases cfg b tags =
      (effectiveModules cfg.modules).map (fun m =>
        versionString (incrementVersion (getProposedSemName tags)
          cfg.incMajor cfg.incMinor cfg.incPatch) ++ modBranchSuffix m b) ∧
    ∀ r ∈ computeReleases cfg b tags,
      ∃ m ∈ effectiveModules cfg.modules,
        r = versionString (incrementVersion (getProposedSemName tags)
            cfg.incMajor cfg.incMinor cfg.incPatch) ++
          modBranchSuffix m b := by
  have h1 : computeReleases cfg b tags =
      (effectiveModules cfg.modules).map (fun m =>
        versionString (incrementVersion (getProposedSemName tags)
          cfg.incMajor cfg.incMinor cfg.incPatch) ++
          modBranchSuffix m b) := by
    unfold computeReleases
    rw [if_pos h]
    rfl
  refine ⟨h1, ?_⟩
  intro r hr
  rw [h1] at hr
  obtain ⟨m, hm, hfm⟩ := List.mem_map.1 hr
  exact ⟨m, hm, hfm.symm⟩

/-- Witness for C10 at a concrete two-module `--inc-minor` run on base
version `1.4.7`. -/
theorem c10_semver_single_increment_witness :
    (semCfg ["api", "web"]).semVer = true ∧
    computeReleases (semCfg ["api", "web"]) "main" ["1.4.7"] =
      ["1.5.0-api", "1.5.0-web"] ∧
    computeReleases (semCfg ["api", "web"]) "main" ["1.4.7"] =
      (effectiveModules ["api", "web"]).map (fun m =>
        versionString (incrementVersion (getProposedSemName ["1.4.7"])
          false true false) ++ modBranchSuffix m "main") :=
  ⟨rfl, by decide,
    (c10_semver_single_increment (semCfg ["api", "web"]) "main"
      ["1.4.7"] rfl).1⟩

/-- C8 counterexample: on a concrete dry run the stdout is two lines — a
header line and the identifier line — not the single summary line the
claim states. -/
theorem c8_counterexample_two_lines :
    (runMain { dateCfg ["api"] with dryRun := true }
        (baseEnv [])).stdout =
      ["would create release:", "2024.01.001-api"] ∧
    (runMain { dateCfg ["api"] with dryRun := true }
        (baseEnv [])).stdout.length ≠ 1 := by
  decide

/-- C8 (amended): for every dry-run invocation that reaches the summary,
stdout carries a two-line summary — the `would create release(s):`
header followed by one line listing all computed identifiers joined by
commas — instead of the one-line-per-created-release output of a real
run. -/
theorem c8_dry_run_summary (cfg : RunConfig) (env : Env)
    (hnm : env.newManagerErr = none)
    (hrem : cfg.doPush = true → env.remoteOk cfg.remote = true)
    (hbr : cfg.semVer = true → env.branch.isSome = true)
    (hdr : cfg.dryRun = true) :
    (runMain cfg env).stdout =
      ["would create release" ++
          (if (computeReleases cfg (env.branch.getD "")
                env.initialTags).length > 1 then "s" else "") ++ ":",
        String.intercalate ", "
          (computeReleases cfg (env.branch.getD "") env.initialTags)] := by
  obtain ⟨ev, heq⟩ := runMain_eq_after hnm hrem
  rw [heq]
  exact (runAfterRemote_dry ev hnm hbr hdr).2.1

/-- Witness for the amended C8 at a concrete two-module dry run. -/
theorem c8_dry_run_summary_witness :
    ({ dateCfg ["api", "web"] with dryRun := true } :
        RunConfig).dryRun = true ∧
    (runMain { dateCfg ["api", "web"] with dryRun := true }
        (baseEnv [])).stdout =
      ["would create releases:", "2024.01.001-api, 2024.01.001-web"] :=
  ⟨rfl, by
    have h := c8_dry_run_summary
      { dateCfg ["api", "web"] with dryRun := true } (baseEnv []) rfl
      (fun hc => by cases hc) (fun hc => by cases hc) rfl
    rw [h]
    decide⟩

/-- C1 counterexample: with existing tag `2024.01.001-api`, a run for
modules `api` and `web` proposes `2024.01.001-api` — a collision with
the existing tag — and not the `2024.01.002-api` the claim states: the
module suffix is appended after the shared number and does not
participate in the scan, so module/date combinations do not keep
independent sequences. -/
theorem c1_counterexample_no_per_module_counter :
    computeReleases (dateCfg ["api", "web"]) "main" ["2024.01.001-api"] =
      ["2024.01.001-api", "2024.01.001-web"] ∧
    "2024.01.002-api" ∉
      computeReleases (dateCfg ["api", "web"]) "main"
        ["2024.01.001-api"] := by
  decide

/-- C1 (amended): the running number is computed once per run by
`GetProposedDate` without module context — a tag whose trailing
component is `001-api` is not numeric, so it is ignored by the scan —
and the module is appended afterwards.  With existing tags
`{2024.01.001-api}`, proposing for `api` on the same date yields
`2024.01.001-api` again, whose creation then fails with
`TagAlreadyExists`, while `web` yields `2024.01.001-web`, which is
created: modules share one counter instead of keeping their own. -/
theorem c1_module_shares_counter :
    getProposedDate "2024.01." ["2024.01.001-api"] = "2024.01.001" ∧
    computeReleases (dateCfg ["api", "web"]) "main" ["2024.01.001-api"] =
      ["2024.01.001-api", "2024.01.001-web"] ∧
    (runMain (dateCfg ["api", "web"])
        (baseEnv ["2024.01.001-api"])).outcome =
      Outcome.fatal (atLeastOneMsg false) ∧
    (runMain (dateCfg ["api", "web"])
        (baseEnv ["2024.01.001-api"])).finalTags =
      ["2024.01.001-api", "2024.01.001-web"] := by
  decide

/-- C2 counterexample: in a run with two unnamed modules and no existing
tags, both proposals are `2024.01.001`; had the tag set been re-read
after the first tag was created, the second proposal would have been
`2024.01.002` — so the proposal computed for a later module does not
take into account the tags created for earlier modules in the same
run. -/
theorem c2_counterexample_no_rescan :
    computeReleases (dateCfg ["", ""]) "main" [] =
      ["2024.01.001", "2024.01.001"] ∧
    getProposedDate "2024.01." ["2024.01.001"] = "2024.01.002" ∧
    (computeReleases (dateCfg ["", ""]) "main" []).getD 1 "" ≠
      getProposedDate "2024.01." ["2024.01.001"] := by
  decide

/-- C2 (amended): all proposals of a run are computed up front from the
tag set as it stood at the start of the run, before any tag is created;
the tag set is not re-read between loop iterations.  In a run with two
identical (empty) module names this makes the two proposals coincide:
the first is created, the second creation fails with
`TagAlreadyExists`, and the run ends in the aggregate fatal. -/
theorem c2_proposals_computed_up_front :
    computeReleases (dateCfg ["", ""]) "main" [] =
      ["2024.01.001", "2024.01.001"] ∧
    (runMain (dateCfg ["", ""]) (baseEnv [])).finalTags =
      ["2024.01.001"] ∧
    (runMain (dateCfg ["", ""]) (baseEnv [])).outcome =
      Outcome.fatal (atLeastOneMsg false) := by
  decide

end Release
